import Mathlib

/-!
Verification development for the dx7-to-tonverk repository: a shallow
embedding, in Lean, of the integer core of the DX7 FM renderer, together
with theorems about it.

Conventions used throughout the embedding:
* Rust `i32` values are modeled as `Int`.  Where the source relies on
  two's-complement wrap-around (release-mode overflow, `wrapping_add`,
  shifted-out bits), the wrap is made explicit with `wrap32`.
* Arithmetic right shift `>>` on `i32` is floor division by a power of
  two, which is exactly `Int./` for a positive divisor (`sar`).
* Bit masks `x & (2^k - 1)` on `i32`/`u8` are `x % 2^k` (for `Int`,
  `emod` returns the two's-complement low bits for every sign).
* Rust `u8` values are modeled as `Nat`, with `< 256` hypotheses where a
  result depends on the byte width.
* Floating-point computations (`f32`/`f64`) are not modeled; functions
  whose results feed into the modeled integer logic only as opaque data
  (the sine table, the exp2 table, float envelope state) are taken as
  parameters of the corresponding definitions.
-/

namespace Dx7

set_option maxRecDepth 100000

/-- Two's-complement wrap of an integer into the signed 32-bit range,
as Rust release-mode `i32` arithmetic behaves. -/
def wrap32 (a : Int) : Int :=
  (a + 2 ^ 31) % 2 ^ 32 - 2 ^ 31

/-- Arithmetic shift right by `n` bits on a (conceptually 32-bit or
64-bit) integer: floor division by `2 ^ n`. -/
def sar (a : Int) (n : Nat) : Int :=
  a / 2 ^ n

/-- Rust `i32::saturating_sub`. -/
def satSub32 (a b : Int) : Int :=
  max (min (a - b) (2 ^ 31 - 1)) (-(2 ^ 31))

/-! ## Patch model and `Patch::unpack` (src/fm/patch.rs) -/

/-- DX7 envelope parameters, from `patch.rs` (`Envelope`): four rates and
four levels, each a byte. -/
structure PEnvelope where
  rate : List Nat
  level : List Nat
  deriving Repr, DecidableEq

/-- Keyboard scaling parameters, from `patch.rs` (`KeyboardScaling`). -/
structure PKeyboardScaling where
  breakPoint : Nat
  leftDepth : Nat
  rightDepth : Nat
  leftCurve : Nat
  rightCurve : Nat
  deriving Repr, DecidableEq

/-- DX7 operator parameters, from `patch.rs` (`Operator`). -/
structure POperator where
  envelope : PEnvelope
  keyboardScaling : PKeyboardScaling
  rateScaling : Nat
  ampModSensitivity : Nat
  velocitySensitivity : Nat
  level : Nat
  mode : Nat
  coarse : Nat
  fine : Nat
  detune : Nat
  deriving Repr, DecidableEq

/-- LFO modulation parameters, from `patch.rs` (`ModulationParameters`). -/
structure PModulation where
  rate : Nat
  delay : Nat
  pitchModDepth : Nat
  ampModDepth : Nat
  resetPhase : Nat
  waveform : Nat
  pitchModSensitivity : Nat
  deriving Repr, DecidableEq

/-- Complete DX7 patch, from `patch.rs` (`Patch`).  The ten name
characters are modeled as their byte values. -/
structure Patch where
  op : List POperator
  pitchEnvelope : PEnvelope
  algorithm : Nat
  feedback : Nat
  resetPhase : Nat
  modulations : PModulation
  transpose : Nat
  name : List Nat
  activeOperators : Nat
  deriving Repr, DecidableEq

/-- Unpacking of one operator record out of a 128-byte packed patch,
operator `i` reading the 17-byte block at offset `i * 17`; translated
from the operator loop of `Patch::unpack` in `patch.rs`. -/
def unpackOp (data : List Nat) (i : Nat) : POperator :=
  let d := fun j => data.getD (i * 17 + j) 0
  { envelope :=
      { rate := [min (d 0 % 128) 99, min (d 1 % 128) 99,
                 min (d 2 % 128) 99, min (d 3 % 128) 99]
        level := [min (d 4 % 128) 99, min (d 5 % 128) 99,
                  min (d 6 % 128) 99, min (d 7 % 128) 99] }
    keyboardScaling :=
      { breakPoint := min (d 8 % 128) 99
        leftDepth := min (d 9 % 128) 99
        rightDepth := min (d 10 % 128) 99
        leftCurve := d 11 % 4
        rightCurve := d 11 / 4 % 4 }
    rateScaling := d 12 % 8
    ampModSensitivity := d 13 % 4
    velocitySensitivity := d 13 / 4 % 8
    level := min (d 14 % 128) 99
    mode := d 15 % 2
    coarse := d 15 / 2 % 32
    fine := min (d 16 % 128) 99
    detune := min (d 12 / 8 % 16) 14 }

/-- Translation of `Patch::unpack` from `patch.rs`: decodes a 128-byte
packed SysEx voice into a `Patch`.  The length-128 assertion of the
source is reflected by the length hypotheses of the theorems that use
this definition. -/
def patchUnpack (data : List Nat) : Patch :=
  let d := fun j => data.getD j 0
  { op := (List.range 6).map (unpackOp data)
    pitchEnvelope :=
      { rate := [min (d 102 % 128) 99, min (d 103 % 128) 99,
                 min (d 104 % 128) 99, min (d 105 % 128) 99]
        level := [min (d 106 % 128) 99, min (d 107 % 128) 99,
                  min (d 108 % 128) 99, min (d 109 % 128) 99] }
    algorithm := d 110 % 32
    feedback := d 111 % 8
    resetPhase := d 111 / 8 % 2
    modulations :=
      { rate := min (d 112 % 128) 99
        delay := min (d 113 % 128) 99
        pitchModDepth := min (d 114 % 128) 99
        ampModDepth := min (d 115 % 128) 99
        resetPhase := d 116 % 2
        waveform := min (d 116 / 2 % 8) 5
        pitchModSensitivity := d 116 / 16 }
    transpose := min (d 117 % 128) 48
    name := (List.range 10).map (fun i => d (118 + i) % 128)
    activeOperators := 0x3f }

/-! ## Sysex voice model, `Dx7Patch::from_data` and `Dx7Patch::to_data`
(src/sysex.rs) -/

/-- Envelope parameter quadruple from `sysex.rs` (`Eg`). -/
structure SxEg where
  attack : Nat
  decay1 : Nat
  decay2 : Nat
  rel : Nat
  deriving Repr, DecidableEq, Inhabited

/-- Translation of `Eg::as_array` from `sysex.rs`. -/
def sxEgAsArray (e : SxEg) : List Nat :=
  [e.attack, e.decay1, e.decay2, e.rel]

/-- Operator parameters from `sysex.rs` (`OperatorParams`). -/
structure SxOperatorParams where
  rates : SxEg
  levels : SxEg
  levelScalingBp : Nat
  levelScalingLd : Nat
  levelScalingRd : Nat
  levelScalingLc : Nat
  levelScalingRc : Nat
  rateScaling : Nat
  ampModSens : Nat
  velocitySens : Nat
  outputLevel : Nat
  oscMode : Nat
  coarseFreq : Nat
  fineFreq : Nat
  detune : Nat
  deriving Repr, DecidableEq, Inhabited

/-- Global parameters from `sysex.rs` (`GlobalParams`). -/
structure SxGlobalParams where
  pitchEgRate : List Nat
  pitchEgLevel : List Nat
  algorithm : Nat
  feedback : Nat
  oscSync : Nat
  lfoSpeed : Nat
  lfoDelay : Nat
  lfoPitchModDepth : Nat
  lfoAmpModDepth : Nat
  lfoSync : Nat
  lfoWaveform : Nat
  pitchModSens : Nat
  transpose : Nat
  deriving Repr, DecidableEq

/-- Parsed DX7 patch from `sysex.rs` (`Dx7Patch`).  The name is kept as
its list of bytes. -/
structure Dx7Patch where
  operators : List SxOperatorParams
  global : SxGlobalParams
  name : List Nat
  deriving Repr, DecidableEq

/-- Byte values treated as whitespace by the name trimming of
`Dx7Patch::from_data` (ASCII subset of the Unicode white-space
property used by Rust `str::trim`). -/
def isWsByte (b : Nat) : Bool :=
  b = 32 || b = 9 || b = 10 || b = 11 || b = 12 || b = 13

/-- Name post-processing of `Dx7Patch::from_data`: drop all trailing NUL
bytes, trim surrounding whitespace, and substitute the INIT VOICE name
when the result is empty.  Modeled on byte lists; the lossy UTF-8
conversion of the source is the identity on the ASCII bytes exercised
here. -/
def sxNameOfBytes (bs : List Nat) : List Nat :=
  let noNul := (bs.reverse.dropWhile (fun b => b = 0)).reverse
  let trimmed :=
    ((noNul.dropWhile isWsByte).reverse.dropWhile isWsByte).reverse
  if trimmed.isEmpty then [73, 78, 73, 84, 32, 86, 79, 73, 67, 69]
  else trimmed

/-- Translation of `Dx7Patch::from_data` from `sysex.rs`: parses a
155-byte unpacked voice record.  Inputs shorter than 155 bytes are
rejected (`none`), as in the source. -/
def fromData (data : List Nat) : Option Dx7Patch :=
  if data.length < 155 then none
  else
    let d := fun j => data.getD j 0
    some
      { operators :=
          (List.range 6).map (fun op =>
            let b := fun j => d (op * 21 + j)
            { rates := { attack := b 0, decay1 := b 1, decay2 := b 2, rel := b 3 }
              levels := { attack := b 4, decay1 := b 5, decay2 := b 6, rel := b 7 }
              levelScalingBp := b 8
              levelScalingLd := b 9
              levelScalingRd := b 10
              levelScalingLc := b 11
              levelScalingRc := b 12
              rateScaling := b 13
              ampModSens := b 14
              velocitySens := b 15
              outputLevel := b 16
              oscMode := b 17
              coarseFreq := b 18
              fineFreq := b 19
              detune := b 20 })
        global :=
          { pitchEgRate := [d 126, d 127, d 128, d 129]
            pitchEgLevel := [d 130, d 131, d 132, d 133]
            algorithm := d 134
            feedback := d 135
            oscSync := d 136
            lfoSpeed := d 137
            lfoDelay := d 138
            lfoPitchModDepth := d 139
            lfoAmpModDepth := d 140
            lfoSync := d 141
            lfoWaveform := d 142
            pitchModSens := d 143
            transpose := d 144 }
        name := sxNameOfBytes ((List.range 10).map (fun i => d (145 + i))) }

/-- Bytes of the 21-byte block that `Dx7Patch::to_data` writes for a
single operator.  Offsets 14, 17, 18 and 20 are never written by the
source and stay zero; offsets 11, 12, 13 and 15 receive bit-packed
combinations (`curve_settings`, `detune_rs`, `vel_amp_sens`,
`fcoarse_mode`), exactly as in `sysex.rs` lines 148-171. -/
def toDataOpBlock (p : SxOperatorParams) : List Nat :=
  sxEgAsArray p.rates ++ sxEgAsArray p.levels ++
    [p.levelScalingBp, p.levelScalingLd, p.levelScalingRd,
     p.levelScalingLc % 4 + p.levelScalingRc % 4 * 4,
     (p.detune % 128 * 8) % 256 + p.rateScaling % 8,
     p.velocitySens % 8 * 4 + p.ampModSens % 4,
     0,
     p.oscMode % 2 + p.coarseFreq % 32 * 2,
     p.outputLevel,
     0, 0,
     p.fineFreq,
     0]

/-- Translation of `Dx7Patch::to_data` from `sysex.rs`: serializes a
patch to its 155-byte voice-data form.  The name is padded to ten bytes
with spaces; a name longer than ten bytes would make the source panic in
`copy_from_slice`, modeled as `none`. -/
def toData (p : Dx7Patch) : Option (List Nat) :=
  if p.name.length ≤ 10 then
    some
      ((List.range 6).flatMap
          (fun op => toDataOpBlock (p.operators.getD op default)) ++
        p.global.pitchEgRate.take 4 ++ p.global.pitchEgLevel.take 4 ++
        [p.global.algorithm, p.global.feedback, p.global.oscSync,
         p.global.lfoSpeed, p.global.lfoDelay, p.global.lfoPitchModDepth,
         p.global.lfoAmpModDepth, p.global.lfoSync, p.global.lfoWaveform,
         p.global.pitchModSens, p.global.transpose] ++
        (p.name ++ List.replicate (10 - p.name.length) 32))
  else none

/-! ## Feedback shift derivation (src/fm/dx7note.rs, `apply_patch`) -/

/-- Derivation of the feedback shift from the patch feedback byte,
translated from `Dx7Note::apply_patch` in `dx7note.rs` (lines 579-585):
`7 - (feedback & 7)` clamped to be non-negative when the byte is
non-zero, and `16` (feedback disabled) when it is zero. -/
def fbShiftOfFeedback (feedback : Nat) : Int :=
  if feedback ≠ 0 then max (7 - ((feedback % 8 : Nat) : Int)) 0 else 16

/-! ## Algorithm opcode tables (src/fm/dx7note.rs `ALGORITHMS` and
src/fm/algorithms.rs `OPCODES_6`) -/

/-- Transcription of the 32-row algorithm table `ALGORITHMS` of
`dx7note.rs` (one six-opcode row per DX7 algorithm, 0xC0 layout). -/
def ALGORITHMS : List (List Nat) :=
  [[0xc1, 0x11, 0x11, 0x14, 0x01, 0x14],
   [0x01, 0x11, 0x11, 0x14, 0xc1, 0x14],
   [0xc1, 0x11, 0x14, 0x01, 0x11, 0x14],
   [0xc1, 0x11, 0x94, 0x01, 0x11, 0x14],
   [0xc1, 0x14, 0x01, 0x14, 0x01, 0x14],
   [0xc1, 0x94, 0x01, 0x14, 0x01, 0x14],
   [0xc1, 0x11, 0x05, 0x14, 0x01, 0x14],
   [0x01, 0x11, 0xc5, 0x14, 0x01, 0x14],
   [0x01, 0x11, 0x05, 0x14, 0xc1, 0x14],
   [0x01, 0x05, 0x14, 0xc1, 0x11, 0x14],
   [0xc1, 0x05, 0x14, 0x01, 0x11, 0x14],
   [0x01, 0x05, 0x05, 0x14, 0xc1, 0x14],
   [0xc1, 0x05, 0x05, 0x14, 0x01, 0x14],
   [0xc1, 0x05, 0x11, 0x14, 0x01, 0x14],
   [0x01, 0x05, 0x11, 0x14, 0xc1, 0x14],
   [0xc1, 0x11, 0x02, 0x25, 0x05, 0x14],
   [0x01, 0x11, 0x02, 0x25, 0xc5, 0x14],
   [0x01, 0x11, 0x11, 0xc5, 0x05, 0x14],
   [0xc1, 0x14, 0x14, 0x01, 0x11, 0x14],
   [0x01, 0x05, 0x14, 0xc1, 0x14, 0x14],
   [0x01, 0x14, 0x14, 0xc1, 0x14, 0x14],
   [0xc1, 0x14, 0x14, 0x14, 0x01, 0x14],
   [0xc1, 0x14, 0x14, 0x01, 0x14, 0x04],
   [0xc1, 0x14, 0x14, 0x14, 0x04, 0x04],
   [0xc1, 0x14, 0x14, 0x04, 0x04, 0x04],
   [0xc1, 0x05, 0x14, 0x01, 0x14, 0x04],
   [0x01, 0x05, 0x14, 0xc1, 0x14, 0x04],
   [0x04, 0xc1, 0x05, 0x14, 0x01, 0x14],
   [0xc1, 0x05, 0x14, 0x04, 0x01, 0x14],
   [0x04, 0xc1, 0x05, 0x14, 0x04, 0x04],
   [0xc1, 0x04, 0x04, 0x04, 0x04, 0x04],
   [0xc1, 0x04, 0x04, 0x04, 0x04, 0x04]]

/-- Helper from `algorithms.rs`: `mod_flags(n) = n << 4`. -/
def modFlags (n : Nat) : Nat := n * 16

/-- Helper from `algorithms.rs`: `add_flags(n) = n | ADDITIVE_FLAG`. -/
def addFlags (n : Nat) : Nat := n ||| 4

/-- Helper from `algorithms.rs`: `out_flags(n) = n`. -/
def outFlags (n : Nat) : Nat := n

/-- Constant `FB_SRC` of `algorithms.rs` (`FEEDBACK_SOURCE_FLAG`). -/
def FB_SRC : Nat := 0x40

/-- Constant `FB_DST` of `algorithms.rs`. -/
def FB_DST : Nat := modFlags 3

/-- Constant `FB` of `algorithms.rs`. -/
def FB : Nat := FB_SRC ||| FB_DST

/-- Constant `NO_MOD` of `algorithms.rs`. -/
def NO_MOD : Nat := modFlags 0

/-- Constant `OUTPUT` of `algorithms.rs`. -/
def OUTPUT : Nat := addFlags 0

/-- Transcription of the compiled opcode table `OPCODES_6` of
`algorithms.rs`, built with the same helper constants as the source. -/
def OPCODES_6 : List (List Nat) :=
  [[FB ||| outFlags 1, modFlags 1 ||| outFlags 1, modFlags 1 ||| outFlags 1,
    modFlags 1 ||| OUTPUT, NO_MOD ||| outFlags 1, modFlags 1 ||| addFlags 0],
   [NO_MOD ||| outFlags 1, modFlags 1 ||| outFlags 1, modFlags 1 ||| outFlags 1,
    modFlags 1 ||| OUTPUT, FB ||| outFlags 1, modFlags 1 ||| addFlags 0],
   [FB ||| outFlags 1, modFlags 1 ||| outFlags 1, modFlags 1 ||| OUTPUT,
    NO_MOD ||| outFlags 1, modFlags 1 ||| outFlags 1, modFlags 1 ||| addFlags 0],
   [FB_DST ||| NO_MOD ||| outFlags 1, modFlags 1 ||| outFlags 1,
    FB_SRC ||| modFlags 1 ||| OUTPUT, NO_MOD ||| outFlags 1,
    modFlags 1 ||| outFlags 1, modFlags 1 ||| addFlags 0],
   [FB ||| outFlags 1, modFlags 1 ||| OUTPUT, NO_MOD ||| outFlags 1,
    modFlags 1 ||| addFlags 0, NO_MOD ||| outFlags 1, modFlags 1 ||| addFlags 0],
   [FB_DST ||| NO_MOD ||| outFlags 1, FB_SRC ||| modFlags 1 ||| OUTPUT,
    NO_MOD ||| outFlags 1, modFlags 1 ||| addFlags 0, NO_MOD ||| outFlags 1,
    modFlags 1 ||| addFlags 0],
   [FB ||| outFlags 1, modFlags 1 ||| outFlags 1, NO_MOD ||| addFlags 1,
    modFlags 1 ||| OUTPUT, NO_MOD ||| outFlags 1, modFlags 1 ||| addFlags 0],
   [NO_MOD ||| outFlags 1, modFlags 1 ||| outFlags 1, FB ||| addFlags 1,
    modFlags 1 ||| OUTPUT, NO_MOD ||| outFlags 1, modFlags 1 ||| addFlags 0],
   [NO_MOD ||| outFlags 1, modFlags 1 ||| outFlags 1, NO_MOD ||| addFlags 1,
    modFlags 1 ||| OUTPUT, FB ||| outFlags 1, modFlags 1 ||| addFlags 0],
   [NO_MOD ||| outFlags 1, NO_MOD ||| addFlags 1, modFlags 1 ||| OUTPUT,
    FB ||| outFlags 1, modFlags 1 ||| outFlags 1, modFlags 1 ||| addFlags 0],
   [FB ||| outFlags 1, NO_MOD ||| addFlags 1, modFlags 1 ||| OUTPUT,
    NO_MOD ||| outFlags 1, modFlags 1 ||| outFlags 1, modFlags 1 ||| addFlags 0],
   [NO_MOD ||| outFlags 1, NO_MOD ||| addFlags 1, NO_MOD ||| addFlags 1,
    modFlags 1 ||| OUTPUT, FB ||| outFlags 1, modFlags 1 ||| addFlags 0],
   [FB ||| outFlags 1, NO_MOD ||| addFlags 1, NO_MOD ||| addFlags 1,
    modFlags 1 ||| OUTPUT, NO_MOD ||| outFlags 1, modFlags 1 ||| addFlags 0],
   [FB ||| outFlags 1, NO_MOD ||| addFlags 1, modFlags 1 ||| outFlags 1,
    modFlags 1 ||| OUTPUT, NO_MOD ||| outFlags 1, modFlags 1 ||| addFlags 0],
   [NO_MOD ||| outFlags 1, NO_MOD ||| addFlags 1, modFlags 1 ||| outFlags 1,
    modFlags 1 ||| OUTPUT, FB ||| outFlags 1, modFlags 1 ||| addFlags 0],
   [FB ||| outFlags 1, modFlags 1 ||| outFlags 1, NO_MOD ||| outFlags 2,
    modFlags 2 ||| addFlags 1, NO_MOD ||| addFlags 1, modFlags 1 ||| OUTPUT],
   [NO_MOD ||| outFlags 1, modFlags 1 ||| outFlags 1, NO_MOD ||| outFlags 2,
    modFlags 2 ||| addFlags 1, FB ||| addFlags 1, modFlags 1 ||| OUTPUT],
   [NO_MOD ||| outFlags 1, modFlags 1 ||| outFlags 1, modFlags 1 ||| outFlags 1,
    FB ||| addFlags 1, NO_MOD ||| addFlags 1, modFlags 1 ||| OUTPUT],
   [FB ||| outFlags 1, modFlags 1 ||| OUTPUT, modFlags 1 ||| addFlags 0,
    NO_MOD ||| outFlags 1, modFlags 1 ||| outFlags 1, modFlags 1 ||| addFlags 0],
   [NO_MOD ||| outFlags 1, NO_MOD ||| addFlags 1, modFlags 1 ||| OUTPUT,
    FB ||| outFlags 1, modFlags 1 ||| addFlags 0, modFlags 1 ||| addFlags 0],
   [NO_MOD ||| outFlags 1, modFlags 1 ||| OUTPUT, modFlags 1 ||| addFlags 0,
    FB ||| outFlags 1, modFlags 1 ||| addFlags 0, modFlags 1 ||| addFlags 0],
   [FB ||| outFlags 1, modFlags 1 ||| OUTPUT, modFlags 1 ||| addFlags 0,
    modFlags 1 ||| addFlags 0, NO_MOD ||| outFlags 1, modFlags 1 ||| addFlags 0],
   [FB ||| outFlags 1, modFlags 1 ||| OUTPUT, modFlags 1 ||| addFlags 0,
    NO_MOD ||| outFlags 1, modFlags 1 ||| addFlags 0, NO_MOD ||| addFlags 0],
   [FB ||| outFlags 1, modFlags 1 ||| OUTPUT, modFlags 1 ||| addFlags 0,
    modFlags 1 ||| addFlags 0, NO_MOD ||| addFlags 0, NO_MOD ||| addFlags 0],
   [FB ||| outFlags 1, modFlags 1 ||| OUTPUT, modFlags 1 ||| addFlags 0,
    NO_MOD ||| addFlags 0, NO_MOD ||| addFlags 0, NO_MOD ||| addFlags 0],
   [FB ||| outFlags 1, NO_MOD ||| addFlags 1, modFlags 1 ||| OUTPUT,
    NO_MOD ||| outFlags 1, modFlags 1 ||| addFlags 0, NO_MOD ||| addFlags 0],
   [NO_MOD ||| outFlags 1, NO_MOD ||| addFlags 1, modFlags 1 ||| OUTPUT,
    FB ||| outFlags 1, modFlags 1 ||| addFlags 0, NO_MOD ||| addFlags 0],
   [NO_MOD ||| OUTPUT, FB ||| outFlags 1, modFlags 1 ||| outFlags 1,
    modFlags 1 ||| addFlags 0, NO_MOD ||| outFlags 1, modFlags 1 ||| addFlags 0],
   [FB ||| outFlags 1, modFlags 1 ||| OUTPUT, NO_MOD ||| outFlags 1,
    modFlags 1 ||| addFlags 0, NO_MOD ||| addFlags 0, NO_MOD ||| addFlags 0],
   [NO_MOD ||| OUTPUT, FB ||| outFlags 1, modFlags 1 ||| outFlags 1,
    modFlags 1 ||| addFlags 0, NO_MOD ||| addFlags 0, NO_MOD ||| addFlags 0],
   [FB ||| outFlags 1, modFlags 1 ||| OUTPUT, NO_MOD ||| addFlags 0,
    NO_MOD ||| addFlags 0, NO_MOD ||| addFlags 0, NO_MOD ||| addFlags 0],
   [FB ||| OUTPUT, NO_MOD ||| addFlags 0, NO_MOD ||| addFlags 0,
    NO_MOD ||| addFlags 0, NO_MOD ||| addFlags 0, NO_MOD ||| addFlags 0]]

/-- Byte predicate for the 0xC0-layout table: both the FB_IN bit (6) and
the FB_OUT bit (7) are set, that is `(b & 0xC0) == 0xC0`. -/
def isFeedbackBoth (b : Nat) : Bool := b / 64 % 4 = 3

/-- Byte predicate for the compiled table: the feedback-source flag
(bit 6, `FEEDBACK_SOURCE_FLAG = 0x40`) is set. -/
def hasFbSrcFlag (b : Nat) : Bool := b / 64 % 2 = 1

/-! ## Envelope generator (src/fm/env.rs) -/

/-- Level lookup table `LEVEL_LUT` of `env.rs`. -/
def LEVEL_LUT : List Int :=
  [0, 5, 9, 13, 17, 20, 23, 25, 27, 29, 31, 33, 35, 37, 39, 41, 42, 43, 45, 46]

/-- Static-hold duration table `STATICS` of `env.rs` (77 entries). -/
def STATICS : List Int :=
  [1764000, 1764000, 1411200, 1411200, 1190700, 1014300, 992250,
   882000, 705600, 705600, 584325, 507150, 502740, 441000, 418950,
   352800, 308700, 286650, 253575, 220500, 220500, 176400, 145530,
   145530, 125685, 110250, 110250, 88200, 88200, 74970, 61740,
   61740, 55125, 48510, 44100, 37485, 31311, 30870, 27562, 27562,
   22050, 18522, 17640, 15435, 14112, 13230, 11025, 9261, 9261, 7717,
   6615, 6615, 5512, 5512, 4410, 3969, 3969, 3439, 2866, 2690, 2249,
   1984, 1896, 1808, 1411, 1367, 1234, 1146, 926, 837, 837, 705,
   573, 573, 529, 441, 441]

/-- Envelope generator state, from `env.rs` (`Env`). -/
structure Env where
  rates : List Int
  levels : List Int
  outlevel : Int
  rateScaling : Int
  level : Int
  targetlevel : Int
  rising : Bool
  ix : Int
  inc : Int
  staticcount : Int
  down : Bool
  deriving Repr, DecidableEq

/-- Translation of `Env::scale_outlevel` from `env.rs`. -/
def scaleOutlevel (outlevel : Int) : Int :=
  if 20 ≤ outlevel then 28 + outlevel else LEVEL_LUT.getD outlevel.toNat 0

/-- Translation of `Env::advance` from `env.rs`: enter stage `newix`,
deriving the Q24 target level, the clamped rate, the static-hold count
and the per-sample increment.  `srMult` is the value of the global
`SR_MULTIPLIER` atomic.  The `as usize` casts of the source (which
would panic on negative values) are modeled with `Int.toNat`. -/
def envAdvance (srMult : Int) (e : Env) (newix : Int) : Env :=
  let e1 := { e with ix := newix }
  if newix < 4 then
    let newlevel := e1.levels.getD newix.toNat 0
    let a2 := sar (scaleOutlevel newlevel) 1 * 2 ^ 6 + e1.outlevel - 4256
    let actuallevel := if a2 < 16 then 16 else a2
    let targetlevel := actuallevel * 2 ^ 16
    let rising := targetlevel > e1.level
    let qrate := min (sar (e1.rates.getD newix.toNat 0 * 41) 6 + e1.rateScaling) 63
    let staticcount :=
      if targetlevel = e1.level ∨ (newix = 0 ∧ newlevel = 0) then
        let staticrate := min (e1.rates.getD newix.toNat 0 + e1.rateScaling) 99
        let sc0 :=
          if staticrate < 77 then STATICS.getD staticrate.toNat 0
          else 20 * (99 - staticrate)
        let sc1 :=
          if staticrate < 77 ∧ newix = 0 ∧ newlevel = 0 then sc0 / 20 else sc0
        sar (sc1 * srMult) 24
      else 0
    let inc0 := (4 + qrate % 4) * 2 ^ (2 + 6 + qrate / 4).toNat
    { e1 with
      targetlevel := targetlevel
      rising := rising
      staticcount := staticcount
      inc := sar (inc0 * srMult) 24 }
  else e1

/-- Translation of `Env::get_sample` from `env.rs`: one block-step of
the envelope, returning the updated state together with the produced
Q24 logarithmic level. -/
def envGetSample (srMult : Int) (e0 : Env) : Env × Int :=
  let e :=
    if e0.staticcount > 0 then
      let sc := e0.staticcount - 64
      if sc ≤ 0 then envAdvance srMult { e0 with staticcount := 0 } (e0.ix + 1)
      else { e0 with staticcount := sc }
    else e0
  let e2 :=
    if e.ix < 3 ∨ (e.ix < 4 ∧ ¬ e.down) then
      if e.staticcount > 0 then e
      else if e.rising then
        let lvl0 := if e.level < 1716 * 2 ^ 16 then 1716 * 2 ^ 16 else e.level
        let lvl := lvl0 + sar (17 * 2 ^ 24 - lvl0) 24 * e.inc
        if lvl ≥ e.targetlevel then
          envAdvance srMult { e with level := e.targetlevel } (e.ix + 1)
        else { e with level := lvl }
      else
        let lvl := e.level - e.inc
        if lvl ≤ e.targetlevel then
          envAdvance srMult { e with level := e.targetlevel } (e.ix + 1)
        else { e with level := lvl }
    else e
  (e2, e2.level)

/-- Translation of `Env::keydown` from `env.rs`. -/
def envKeydown (srMult : Int) (e : Env) (down : Bool) : Env :=
  if e.down ≠ down then
    envAdvance srMult { e with down := down } (if down then 0 else 3)
  else e

/-! ## Operator kernels (src/fm/fm_op_kernel.rs).  The sine lookup is a
table of floating-point origin; it enters the kernels only as an opaque
`Int → Int` parameter `sinL`. -/

/-- Per-block gain increment `(gain2 - gain1 + (N >> 1)) >> LG_N` of the
kernels in `fm_op_kernel.rs`, with `N = 64`, `LG_N = 6`. -/
def dgainOf (gain1 gain2 : Int) : Int :=
  sar (wrap32 (gain2 - gain1 + 32)) 6

/-- Add-mode versus overwrite-mode commit of a kernel result: in add
mode each produced sample is summed into the existing buffer
(`output[i] += y1`), otherwise it replaces it. -/
def addOrReplace (add : Bool) (out0 raw : List Int) : List Int :=
  if add then List.zipWith (fun a b => wrap32 (a + b)) out0 raw else raw

/-- Sample loop of `FmOpKernel::compute_pure` from `fm_op_kernel.rs`:
`n` remaining samples from the given phase and gain. -/
def computePureAux (sinL : Int → Int) (freq dgain : Int) :
    Nat → Int → Int → List Int
  | 0, _, _ => []
  | Nat.succ n, phase, gain =>
    let g := wrap32 (gain + dgain)
    let y1 := wrap32 (sar (sinL phase * g) 24)
    y1 :: computePureAux sinL freq dgain n (wrap32 (phase + freq)) g

/-- Translation of `FmOpKernel::compute_pure` from `fm_op_kernel.rs`. -/
def computePure (sinL : Int → Int) (out0 : List Int)
    (phase0 freq gain1 gain2 : Int) (add : Bool) : List Int :=
  addOrReplace add out0
    (computePureAux sinL freq (dgainOf gain1 gain2) 64 phase0 gain1)

/-- Sample loop of `FmOpKernel::compute` from `fm_op_kernel.rs`: like
the pure loop but the sine phase is offset by the modulation input. -/
def computeModAux (sinL : Int → Int) (freq dgain : Int) :
    List Int → Int → Int → List Int
  | [], _, _ => []
  | x :: xs, phase, gain =>
    let g := wrap32 (gain + dgain)
    let y1 := wrap32 (sar (sinL (wrap32 (phase + x)) * g) 24)
    y1 :: computeModAux sinL freq dgain xs (wrap32 (phase + freq)) g

/-- Translation of `FmOpKernel::compute` from `fm_op_kernel.rs`. -/
def computeMod (sinL : Int → Int) (out0 input : List Int)
    (phase0 freq gain1 gain2 : Int) (add : Bool) : List Int :=
  addOrReplace add out0
    (computeModAux sinL freq (dgainOf gain1 gain2) input phase0 gain1)

/-- Sample loop of `FmOpKernel::compute_fb` from `fm_op_kernel.rs`:
each sample shifts the sum of the two delay taps right by
`min(fb_shift + 1, 31)` bits, offsets the sine phase by the result,
applies the gain, shifts the taps, and advances the phase. -/
def computeFbAux (sinL : Int → Int) (freq dgain fbShift : Int) :
    Nat → Int → Int → Int → Int → List Int × Int × Int
  | 0, _, _, y0, y1 => ([], y0, y1)
  | Nat.succ n, phase, gain, y0, y1 =>
    let g := wrap32 (gain + dgain)
    let yn := wrap32 (sar (sinL (wrap32 (phase +
      sar (wrap32 (y0 + y1)) (min (fbShift + 1) 31).toNat)) * g) 24)
    let r := computeFbAux sinL freq dgain fbShift n (wrap32 (phase + freq)) g y1 yn
    (yn :: r.1, r.2)

/-- Translation of `FmOpKernel::compute_fb` from `fm_op_kernel.rs`:
returns the committed output buffer together with the two delay taps
stored back for the next invocation. -/
def computeFb (sinL : Int → Int) (out0 : List Int)
    (phase0 freq gain1 gain2 y0 y1 fbShift : Int) (add : Bool) :
    List Int × Int × Int :=
  let r := computeFbAux sinL freq (dgainOf gain1 gain2) fbShift 64 phase0 gain1 y0 y1
  (addOrReplace add out0 r.1, r.2)

/-- Spec-side single-sample step of the feedback kernel, following the
words of claim C7 on state `(y0, y1, phase, gain)`: the modulation is
`(y0 + y1) >> (fb_shift + 1)` with `fb_shift` clamped to at most 30,
then `y0 = y1`, `y1 = (sin_lookup(phase + m) * gain) >> 24`, and the
phase advances by `freq`. -/
def fbStep (sinL : Int → Int) (freq dgain fbShift : Int)
    (s : Int × Int × Int × Int) : Int × Int × Int × Int :=
  let g := wrap32 (s.2.2.2 + dgain)
  let m := sar (wrap32 (s.1 + s.2.1)) (min fbShift 30 + 1).toNat
  let y := wrap32 (sar (sinL (wrap32 (s.2.2.1 + m)) * g) 24)
  (s.2.1, y, wrap32 (s.2.2.1 + freq), g)

/-- Spec-side full feedback-kernel run assembled from the claim wording:
sample `i` of the block is the `y1` component after `i + 1` steps, the
stored-back taps are the `(y0, y1)` components after 64 steps, and the
result is committed in add or overwrite mode. -/
def fbSpecRun (sinL : Int → Int) (out0 : List Int)
    (phase0 freq gain1 gain2 y0 y1 fbShift : Int) (add : Bool) :
    List Int × Int × Int :=
  let s := fun n =>
    (fbStep sinL freq (dgainOf gain1 gain2) fbShift)^[n] (y0, y1, phase0, gain1)
  (addOrReplace add out0 ((List.range 64).map (fun i => (s (i + 1)).2.1)),
   (s 64).1, (s 64).2.1)

/-! ## Note processing (src/fm/dx7note.rs `Dx7Note::process`).  The
sine and exp2 lookups (floating-point/table code in `sin.rs` and
`exp2.rs`) enter only as opaque parameters `sinL` and `exp2L`. -/

/-- Envelope state produced by `Env::new`. -/
def envNew : Env :=
  { rates := [0, 0, 0, 0], levels := [0, 0, 0, 0], outlevel := 0,
    rateScaling := 0, level := 0, targetlevel := 0, rising := false,
    ix := 0, inc := 0, staticcount := 0, down := true }

/-- Operator slot from `dx7note.rs` (`FmOperator`). -/
structure FmOperator where
  env : Env
  phase : Int
  freq : Int
  level : Int
  fbBuf : List Int
  enabled : Bool
  deriving Repr, DecidableEq

/-- Translation of `FmOperator::new` from `dx7note.rs`. -/
def fmOperatorNew : FmOperator :=
  { env := envNew, phase := 0, freq := 0, level := 0, fbBuf := [0, 0],
    enabled := true }

/-- Note state from `dx7note.rs` (`Dx7Note`).  The unused
floating-point `pitch_bend` field is not modeled. -/
structure Dx7Note where
  operators : List FmOperator
  note : Nat
  velocity : Nat
  algorithm : Nat
  active : Bool
  phase : Int
  fbBuf : List Int
  fbShift : Int
  busBuffers : List (List Int)
  deriving Repr, DecidableEq

/-- Concrete quiescent note used by witnesses: six fresh operators,
active, with the feedback-disabled shift 16. -/
def noteW : Dx7Note :=
  { operators := List.replicate 6 fmOperatorNew, note := 60, velocity := 64,
    algorithm := 1, active := true, phase := 0, fbBuf := [0, 0],
    fbShift := 16,
    busBuffers := [List.replicate 64 0, List.replicate 64 0] }

/-- Translation of `Dx7Note::is_active` from `dx7note.rs`. -/
def dx7NoteIsActive (n : Dx7Note) : Bool :=
  n.active && n.operators.any (fun op => op.env.ix < 4)

/-- Loop state of `Dx7Note::process`: the note, the block output
buffer, and the three-element `has_contents` vector
`[output, bus1, bus2]`. -/
structure ProcState where
  note : Dx7Note
  output : List Int
  hasContents : List Bool
  deriving Repr, DecidableEq

/-- Routing step of `Dx7Note::process` (the `match outbus` block):
commit an operator block to the main output or one of the two scratch
buses, summing when the ADD flag is set and the destination already has
contents, overwriting otherwise, then mark the destination as having
contents. -/
def routeOp (add : Bool) (outbus : Nat) (opOut : List Int)
    (st : ProcState) : ProcState :=
  let st2 :=
    match outbus with
    | 0 =>
      let o2 :=
        if add && st.hasContents.getD 0 false then
          List.zipWith (fun a b => wrap32 (a + b)) st.output opOut
        else opOut
      { st with output := o2 }
    | 1 =>
      let b2 :=
        if add && st.hasContents.getD 1 false then
          List.zipWith (fun a b => wrap32 (a + b))
            (st.note.busBuffers.getD 0 []) opOut
        else opOut
      { st with note :=
          { st.note with busBuffers := st.note.busBuffers.set 0 b2 } }
    | 2 =>
      let b2 :=
        if add && st.hasContents.getD 2 false then
          List.zipWith (fun a b => wrap32 (a + b))
            (st.note.busBuffers.getD 1 []) opOut
        else opOut
      { st with note :=
          { st.note with busBuffers := st.note.busBuffers.set 1 b2 } }
    | _ => st
  { st2 with hasContents := st2.hasContents.set outbus true }

/-- One iteration of the operator loop of `Dx7Note::process`
(`dx7note.rs` lines 422-550): decode the opcode, sample the envelope,
convert to a linear gain through the exp2 lookup, and either run the
matching kernel and route its output, or, below the audibility
threshold 1120, skip the kernel and clear the destination contents flag
unless ADD is set; in every path the operator phase advances by
`freq << LG_N`. -/
def processOp (sinL exp2L : Int → Int) (srMult : Int) (alg : List Nat)
    (st : ProcState) (opIdx : Nat) : ProcState :=
  let flags := alg.getD opIdx 0
  let add := flags / 4 % 2 = 1
  let inbus := flags / 16 % 4
  let outbus := flags % 4
  let oper := st.note.operators.getD opIdx fmOperatorNew
  let es := envGetSample srMult oper.env
  let gain := exp2L (satSub32 es.2 (14 * 2 ^ 24))
  let operAdv : FmOperator :=
    { oper with
      env := es.1
      phase := wrap32 (oper.phase + wrap32 (oper.freq * 2 ^ 6)) }
  let noteA := { st.note with operators := st.note.operators.set opIdx operAdv }
  if 1120 ≤ gain then
    if inbus = 0 ∨ ¬ st.hasContents.getD inbus false then
      if flags / 64 % 4 = 3 ∧ st.note.fbShift < 16 then
        let r := computeFb sinL (List.replicate 64 0) oper.phase oper.freq
          gain gain (st.note.fbBuf.getD 0 0) (st.note.fbBuf.getD 1 0)
          st.note.fbShift false
        routeOp add outbus r.1
          { st with note := { noteA with fbBuf := [r.2.1, r.2.2] } }
      else
        routeOp add outbus
          (computePure sinL (List.replicate 64 0) oper.phase oper.freq
            gain gain false)
          { st with note := noteA }
    else
      match inbus with
      | 1 =>
        routeOp add outbus
          (computeMod sinL (List.replicate 64 0)
            (st.note.busBuffers.getD 0 []) oper.phase oper.freq
            gain gain false)
          { st with note := noteA }
      | 2 =>
        routeOp add outbus
          (computeMod sinL (List.replicate 64 0)
            (st.note.busBuffers.getD 1 []) oper.phase oper.freq
            gain gain false)
          { st with note := noteA }
      | _ => { st with note := noteA }
  else
    { st with
      note := noteA
      hasContents :=
        if add then st.hasContents else st.hasContents.set outbus false }

/-- Translation of `Dx7Note::process` from `dx7note.rs`: inactive notes
return untouched; otherwise the scratch buses and the output block are
zeroed, `has_contents` starts as `[true, false, false]`, and the six
operators run in index order through `processOp`. -/
def dx7NoteProcess (sinL exp2L : Int → Int) (srMult : Int) (n : Dx7Note)
    (output : List Int) : Dx7Note × List Int :=
  if ¬ dx7NoteIsActive n then (n, output)
  else
    let algIndex := (n.algorithm + 255) % 256 % 32
    let alg := ALGORITHMS.getD algIndex []
    let st0 : ProcState :=
      { note := { n with busBuffers := [List.replicate 64 0, List.replicate 64 0] }
        output := List.replicate 64 0
        hasContents := [true, false, false] }
    let stF := (List.range 6).foldl (processOp sinL exp2L srMult alg) st0
    (stF.note, stF.output)

/-- Effect that claim C8 ascribes to a below-threshold operator step:
the envelope is stepped, the phase advances by `freq << LG_N`, the
contents flag of the destination bus is cleared unless ADD is set, and
nothing else (output block, scratch buses, feedback taps) changes. -/
def c8SkipExpected (srMult : Int) (alg : List Nat) (st : ProcState)
    (opIdx : Nat) : ProcState :=
  let oper := st.note.operators.getD opIdx fmOperatorNew
  let operAdv : FmOperator :=
    { oper with
      env := (envGetSample srMult oper.env).1
      phase := wrap32 (oper.phase + wrap32 (oper.freq * 2 ^ 6)) }
  { st with
    note := { st.note with operators := st.note.operators.set opIdx operAdv }
    hasContents :=
      if alg.getD opIdx 0 / 4 % 2 = 1 then st.hasContents
      else st.hasContents.set (alg.getD opIdx 0 % 4) false }

/-! ## Polyphonic core (src/fm/fm_core.rs `FmCore::process`).  The
floating-point master volume multiply is the opaque parameter
`volScale`; the 24-bit clamp that follows it is exact. -/

/-- Voice slot from `fm_core.rs` (`Voice`). -/
structure FmVoice where
  note : Dx7Note
  age : Nat
  midiNote : Nat
  midiChannel : Nat
  deriving Repr, DecidableEq

/-- Concrete voice slot used by witnesses. -/
def voiceW : FmVoice :=
  { note := noteW, age := 0, midiNote := 60, midiChannel := 0 }

/-- Accumulator of the voice loop in `FmCore::process`: processed
voices, the shared output buffer, and the active-voice count. -/
structure CoreAcc where
  voices : List FmVoice
  output : List Int
  active : Nat
  deriving Repr, DecidableEq

/-- One iteration of the voice loop of `FmCore::process`: an active
voice renders into the shared buffer (and ages); an inactive voice is
skipped. -/
def fmCoreStep (sinL exp2L : Int → Int) (srMult : Int) (acc : CoreAcc)
    (v : FmVoice) : CoreAcc :=
  if dx7NoteIsActive v.note then
    let r := dx7NoteProcess sinL exp2L srMult v.note acc.output
    { voices := acc.voices ++ [{ v with note := r.1, age := v.age + 1 }],
      output := r.2, active := acc.active + 1 }
  else { acc with voices := acc.voices ++ [v] }

/-- Translation of `FmCore::process` from `fm_core.rs`: zero the output
buffer, process each active voice in order into it, and if any voice
was active apply the master volume (opaque `volScale`) followed by the
24-bit clamp. -/
def fmCoreProcess (sinL exp2L : Int → Int) (srMult : Int)
    (volScale : Int → Int) (voices : List FmVoice) :
    List FmVoice × List Int :=
  let res := voices.foldl (fmCoreStep sinL exp2L srMult)
    { voices := [], output := List.replicate 64 0, active := 0 }
  let out :=
    if 0 < res.active then
      res.output.map (fun s => max (min (volScale s) (2 ^ 23 - 1)) (-(2 ^ 23)))
    else res.output
  (res.voices, out)

/-! ## Rendering driver tail loop (src/lib.rs `Patch::generate_samples`,
phase 2).  The rendered `f32` samples are modeled as rationals and the
per-iteration `render_temp` output is an abstract stream of 24-sample
chunks (`MAX_BLOCK_SIZE = 24`); the loop logic itself, which only
compares samples against the silence threshold, is translated
faithfully. -/

/-- Per-sample silence-counter update of `generate_samples`: a sample
whose absolute value is below the threshold `1e-4` increments the
counter, any other sample resets it to zero. -/
def silenceCount (cnt : Nat) (s : ℚ) : Nat :=
  if |s| < 1 / 10000 then cnt + 1 else 0

/-- Number of samples equivalent to 100 ms at the given sample rate,
`(sample_rate * 100) / 1000` as in `generate_samples`. -/
def silenceDurationSamples (sr : Nat) : Nat :=
  sr * 100 / 1000

/-- Translation of the phase-2 loop of `Patch::generate_samples`
(`lib.rs` lines 105-144): render a 24-sample chunk, fold the silence
counter over it, append it to the output, return the truncated output
once the counter reaches the 100 ms threshold, stop once the total
output exceeds ten seconds, and otherwise continue. -/
def phase2Go (sr : Nat) (chunks : Nat → Fin 24 → ℚ) (k : Nat)
    (output : List ℚ) (cnt : Nat) : List ℚ :=
  if silenceDurationSamples sr ≤
      (List.ofFn (chunks k)).foldl silenceCount cnt then
    (output ++ List.ofFn (chunks k)).take
      ((output ++ List.ofFn (chunks k)).length -
        ((List.ofFn (chunks k)).foldl silenceCount cnt -
          silenceDurationSamples sr))
  else if sr * 10 < (output ++ List.ofFn (chunks k)).length then
    output ++ List.ofFn (chunks k)
  else
    phase2Go sr chunks (k + 1) (output ++ List.ofFn (chunks k))
      ((List.ofFn (chunks k)).foldl silenceCount cnt)
termination_by sr * 10 + 24 - output.length
decreasing_by
  simp only [List.length_append, List.length_ofFn] at *
  omega

/-! ## Voice setup and dirty-parameter handling (src/fm/voice.rs).
`Voice::setup` and the floating-point interior of
`Voice::render_internal` work on `f32` data: the float-valued
quantities (envelope schedules, frequency ratios) and the clean-path
block renderer enter the model as opaque type parameters and functions
collected in `C4Ops`; the integer-valued level headroom, the dirty
flag, and the early-return control flow are translated exactly. -/

/-- Translation of `operator_level` from `dx_units.rs`. -/
def operatorLevel (level : Int) : Int :=
  if level < 20 then
    if level < 15 then sar (level * (36 - level)) 3 else 27 + level
  else level + 28

/-- Patch-dependent state of `Voice` from `voice.rs` relevant to the
dirty-parameter path; purely float-valued fields that the dirty path
neither reads nor writes (sample rate, phase accumulators, feedback
state, cached note and velocity) are not modeled. -/
structure VoiceState (F PE OE : Type) where
  dirty : Bool
  patch : Patch
  pitchEnvelope : PE
  operatorEnvelope : List OE
  levelHeadroom : List Int
  ratios : List F

/-- Opaque float-typed operations of `Voice::setup` and the clean-path
body of `Voice::render_internal`: `PE`/`OE` are pitch- and
operator-envelope states (`PitchEnvelope::set`, `OperatorEnvelope::set`
of `envelope.rs`), `F` the float type of frequency ratios
(`frequency_ratio` of `dx_units.rs` and its sign flip), `P` the render
parameters and `Buf` the four output buffers. -/
structure C4Ops (F PE OE P Buf : Type) where
  pitchEnvSet : PE → List Nat → List Nat → PE
  opEnvSet : OE → List Nat → List Nat → Int → OE
  freqRatio : POperator → F
  fneg : F → F
  body : VoiceState F PE OE → P → Buf → VoiceState F PE OE × Buf

/-- Translation of `Voice::setup` from `voice.rs`: when the patch
parameters are dirty, re-derive the pitch-envelope schedule, the
per-operator envelope schedules (from each operator level through
`operator_level`), the level headroom `127 - operator_level(level)`,
and the signed frequency ratios (negated in fixed-frequency mode), mark
clean, and report that the recomputation ran. -/
def voiceSetup {F PE OE P Buf : Type} (ops : C4Ops F PE OE P Buf)
    (v : VoiceState F PE OE) : VoiceState F PE OE × Bool :=
  if ¬ v.dirty then (v, false)
  else
    ({ v with
        pitchEnvelope := ops.pitchEnvSet v.pitchEnvelope
          v.patch.pitchEnvelope.rate v.patch.pitchEnvelope.level
        operatorEnvelope := List.zipWith
          (fun oe op => ops.opEnvSet oe op.envelope.rate op.envelope.level
            (operatorLevel (op.level : Int)))
          v.operatorEnvelope v.patch.op
        levelHeadroom := v.patch.op.map
          (fun op => 127 - operatorLevel (op.level : Int))
        ratios := v.patch.op.map
          (fun op => if op.mode = 0 then ops.freqRatio op
            else ops.fneg (ops.freqRatio op))
        dirty := false }, true)

/-- Translation of the control flow of `Voice::render_internal` from
`voice.rs`: `if self.setup() { return; }` — when the setup ran (the
parameters were dirty) the call returns at once with the supplied
buffers untouched; otherwise the floating-point block renderer (the
opaque `body`) runs. -/
def renderInternal {F PE OE P Buf : Type} (ops : C4Ops F PE OE P Buf)
    (v : VoiceState F PE OE) (params : P) (bufs : Buf) :
    VoiceState F PE OE × Buf :=
  let r := voiceSetup ops v
  if r.2 then (r.1, bufs) else ops.body r.1 params bufs

/-- Recomputation that claim C4 (as amended) ascribes to a dirty render
call, spelled from the claim words: pitch-envelope schedule,
per-operator envelope schedules, level headroom
`127 - operator_level(level)`, signed frequency ratios, and the clean
mark. -/
def c4SetupExpected {F PE OE P Buf : Type} (ops : C4Ops F PE OE P Buf)
    (v : VoiceState F PE OE) : VoiceState F PE OE :=
  { v with
    pitchEnvelope := ops.pitchEnvSet v.pitchEnvelope
      v.patch.pitchEnvelope.rate v.patch.pitchEnvelope.level
    operatorEnvelope := List.zipWith
      (fun oe op => ops.opEnvSet oe op.envelope.rate op.envelope.level
        (operatorLevel (op.level : Int)))
      v.operatorEnvelope v.patch.op
    levelHeadroom := v.patch.op.map
      (fun op => 127 - operatorLevel (op.level : Int))
    ratios := v.patch.op.map
      (fun op => if op.mode = 0 then ops.freqRatio op
        else ops.fneg (ops.freqRatio op))
    dirty := false }

/-- Concrete instantiation of the opaque float operations, with a
clean-path body that does write its buffer (replacing it with 100). -/
def c4OpsInt : C4Ops Int Int Int Int Nat :=
  { pitchEnvSet := fun pe _ _ => pe
    opEnvSet := fun oe _ _ _ => oe
    freqRatio := fun _ => 0
    fneg := fun x => x
    body := fun v _ _ => (v, 100) }

/-- Concrete dirty voice state. -/
def c4VoiceDirty : VoiceState Int Int Int :=
  { dirty := true
    patch := patchUnpack (List.replicate 128 0)
    pitchEnvelope := 0
    operatorEnvelope := [0, 0, 0, 0, 0, 0]
    levelHeadroom := []
    ratios := [] }

/-! ## Concrete inputs used by counterexamples and witnesses -/

/-- Operator record whose fields are all zero except the centered detune
value 7; every field is inside its documented DX7 range. -/
def sxOpDetune7 : SxOperatorParams :=
  { rates := ⟨0, 0, 0, 0⟩
    levels := ⟨0, 0, 0, 0⟩
    levelScalingBp := 0
    levelScalingLd := 0
    levelScalingRd := 0
    levelScalingLc := 0
    levelScalingRc := 0
    rateScaling := 0
    ampModSens := 0
    velocitySens := 0
    outputLevel := 0
    oscMode := 0
    coarseFreq := 0
    fineFreq := 0
    detune := 7 }

/-- Well-formed patch (all fields in their documented ranges) whose six
operators carry the centered detune 7 and whose name is the three ASCII
letters ABC. -/
def sxPatchDetune7 : Dx7Patch :=
  { operators := List.replicate 6 sxOpDetune7
    global :=
      { pitchEgRate := [0, 0, 0, 0]
        pitchEgLevel := [0, 0, 0, 0]
        algorithm := 0
        feedback := 0
        oscSync := 0
        lfoSpeed := 0
        lfoDelay := 0
        lfoPitchModDepth := 0
        lfoAmpModDepth := 0
        lfoSync := 0
        lfoWaveform := 0
        pitchModSens := 0
        transpose := 0 }
    name := [65, 66, 67] }

/-! ## Theorems settling the claims -/

/-- C9: in each of the 32 rows of both fixed opcode tables, exactly one
of the six per-operator opcodes designates the feedback operator: in
`ALGORITHMS` exactly one opcode has both FB_IN (bit 6) and FB_OUT
(bit 7) set, and in `OPCODES_6` exactly one opcode carries the
feedback-source flag (bit 6). -/
theorem claim_c9_unique_feedback_operator :
    (ALGORITHMS.length = 32 ∧
      ∀ row ∈ ALGORITHMS, row.length = 6 ∧ row.countP isFeedbackBoth = 1) ∧
    (OPCODES_6.length = 32 ∧
      ∀ row ∈ OPCODES_6, row.length = 6 ∧ row.countP hasFbSrcFlag = 1) := by
  decide

/-- C6: entering a stage `newix < 4`, `Env::advance` sets the Q24 target
level to `((scale_outlevel(stage_level) >> 1) << 6) + outlevel - 4256`,
clamped below to 16 and shifted left by 16; derives the rate as
`(stage_rate * 41 >> 6) + rate_scaling` clamped above at 63; and sets
the per-sample increment to `(4 + (rate & 3)) << (2 + log2(N) +
(rate >> 2))` scaled by the sample-rate multiplier (`* srMult >> 24`). -/
theorem claim_c6_env_advance (srMult : Int) (e : Env) (newix : Int)
    (h0 : 0 ≤ newix) (h4 : newix < 4) :
    ((envAdvance srMult e newix).targetlevel =
      max (sar (scaleOutlevel (e.levels.getD newix.toNat 0)) 1 * 2 ^ 6 +
        e.outlevel - 4256) 16 * 2 ^ 16) ∧
    ((envAdvance srMult e newix).inc =
      sar ((4 + min (sar (e.rates.getD newix.toNat 0 * 41) 6 + e.rateScaling) 63 % 4) *
        2 ^ (2 + 6 +
          min (sar (e.rates.getD newix.toNat 0 * 41) 6 + e.rateScaling) 63 / 4).toNat *
        srMult) 24) ∧
    min (sar (e.rates.getD newix.toNat 0 * 41) 6 + e.rateScaling) 63 ≤ 63 := by
  have hmax : ∀ a : Int, (if a < 16 then (16 : Int) else a) = max a 16 := by
    intro a
    rcases lt_or_le a 16 with h | h
    · rw [if_pos h]
      omega
    · rw [if_neg (by omega)]
      omega
  refine ⟨?_, ?_, min_le_right _ _⟩
  · simp only [envAdvance, if_pos h4]
    rw [hmax]
  · simp only [envAdvance, if_pos h4]

/-- C6 witness: the stage-entry formulas evaluated on a concrete
envelope state. -/
theorem claim_c6_env_advance_witness :
    let e : Env :=
      { rates := [99, 80, 70, 60], levels := [99, 90, 80, 0],
        outlevel := 3104, rateScaling := 2, level := 0,
        targetlevel := 0, rising := false, ix := 0, inc := 0,
        staticcount := 0, down := true }
    ((envAdvance (2 ^ 24) e 0).targetlevel =
      max (sar (scaleOutlevel (e.levels.getD (0 : Int).toNat 0)) 1 * 2 ^ 6 +
        e.outlevel - 4256) 16 * 2 ^ 16) ∧
    ((envAdvance (2 ^ 24) e 0).inc =
      sar ((4 + min (sar (e.rates.getD (0 : Int).toNat 0 * 41) 6 + e.rateScaling) 63 % 4) *
        2 ^ (2 + 6 +
          min (sar (e.rates.getD (0 : Int).toNat 0 * 41) 6 + e.rateScaling) 63 / 4).toNat *
        (2 ^ 24)) 24) ∧
    min (sar (e.rates.getD (0 : Int).toNat 0 * 41) 6 + e.rateScaling) 63 ≤ 63 :=
  claim_c6_env_advance (2 ^ 24) _ 0 (by decide) (by decide)

/-- Sample loop of `compute_fb` against the claim-side step recurrence:
the produced samples are the successive `y1` components and the final
taps are the state after `n` steps. -/
theorem computeFbAux_eq_spec (sinL : Int → Int) (freq dgain fbShift : Int)
    (n : Nat) (phase gain y0 y1 : Int) :
    computeFbAux sinL freq dgain fbShift n phase gain y0 y1 =
      ((List.range n).map (fun i =>
        ((fbStep sinL freq dgain fbShift)^[i + 1] (y0, y1, phase, gain)).2.1),
       ((fbStep sinL freq dgain fbShift)^[n] (y0, y1, phase, gain)).1,
       ((fbStep sinL freq dgain fbShift)^[n] (y0, y1, phase, gain)).2.1) := by
  induction n generalizing phase gain y0 y1 with
  | zero => simp [computeFbAux]
  | succ m ih =>
    have hshift : (min (fbShift + 1) 31).toNat = (min fbShift 30 + 1).toNat := by
      omega
    have hstep : fbStep sinL freq dgain fbShift (y0, y1, phase, gain) =
        (y1,
         wrap32 (sar (sinL (wrap32 (phase +
           sar (wrap32 (y0 + y1)) (min (fbShift + 1) 31).toNat)) *
             wrap32 (gain + dgain)) 24),
         wrap32 (phase + freq), wrap32 (gain + dgain)) := by
      simp only [fbStep, hshift]
    simp only [computeFbAux, ih, List.range_succ_eq_map, List.map_cons,
      List.map_map, Prod.mk.injEq]
    refine ⟨?_, ?_, ?_⟩
    · congr 1
      · simp [Function.iterate_one, hstep]
      · apply List.map_congr_left
        intro i _
        simp only [Function.comp]
        conv_rhs => rw [show i.succ + 1 = i + 1 + 1 from rfl,
          Function.iterate_succ_apply, hstep]
    · rw [Function.iterate_succ_apply, hstep]
    · rw [Function.iterate_succ_apply, hstep]

/-- C7: `FmOpKernel::compute_fb` equals the claim-side recurrence: it
maintains the two delay taps across the 64 samples, computes the
modulation as `(y0 + y1) >> (fb_shift + 1)` with `fb_shift` clamped to
at most 30 (the applied shift never exceeds 31), rotates the taps,
writes the gain-scaled sine into the output (summing in add mode,
replacing otherwise), advances the phase by `freq`, and stores the
final taps back. -/
theorem claim_c7_compute_fb (sinL : Int → Int) (out0 : List Int)
    (phase0 freq gain1 gain2 y0 y1 fbShift : Int) (add : Bool)
    (hfb : 0 ≤ fbShift) :
    computeFb sinL out0 phase0 freq gain1 gain2 y0 y1 fbShift add =
      fbSpecRun sinL out0 phase0 freq gain1 gain2 y0 y1 fbShift add ∧
    min (fbShift + 1) 31 ≤ 31 ∧ min fbShift 30 ≤ 30 := by
  refine ⟨?_, by omega, by omega⟩
  simp only [computeFb, fbSpecRun, computeFbAux_eq_spec]

/-- C7 witness: the kernel-versus-recurrence equation evaluated with the
identity in place of the sine table, on a zeroed buffer, at feedback
shift 5. -/
theorem claim_c7_compute_fb_witness :
    computeFb (fun x => x) (List.replicate 64 0) 100 3 65536 65536 7 9 5 false =
      fbSpecRun (fun x => x) (List.replicate 64 0) 100 3 65536 65536 7 9 5 false ∧
    min ((5 : Int) + 1) 31 ≤ 31 ∧ min (5 : Int) 30 ≤ 30 :=
  claim_c7_compute_fb (fun x => x) (List.replicate 64 0) 100 3 65536 65536 7 9 5
    false (by decide)

/-- C8: in `Dx7Note::process`, an operator whose computed gain is below
the audibility threshold 1120 invokes no kernel: the output block, the
scratch buses and the feedback taps are left unchanged,
`has_contents[OUT_BUS]` is cleared unless the ADD flag of the opcode is
set, and the operator still advances its phase by `freq << LG_N` (with
its envelope stepped as usual). -/
theorem claim_c8_below_threshold_skip (sinL exp2L : Int → Int)
    (srMult : Int) (alg : List Nat) (st : ProcState) (opIdx : Nat)
    (hgain : exp2L (satSub32
      (envGetSample srMult (st.note.operators.getD opIdx fmOperatorNew).env).2
      (14 * 2 ^ 24)) < 1120) :
    processOp sinL exp2L srMult alg st opIdx =
      c8SkipExpected srMult alg st opIdx := by
  simp only [processOp, c8SkipExpected]
  rw [if_neg (by omega)]

/-- C8 witness: the skip behavior evaluated on a concrete six-operator
note with the exp2 lookup returning zero gain. -/
theorem claim_c8_below_threshold_skip_witness :
    processOp (fun x => x) (fun _ => 0) (2 ^ 24) (ALGORITHMS.getD 0 [])
        { note := noteW, output := List.replicate 64 0,
          hasContents := [true, false, false] } 0 =
      c8SkipExpected (2 ^ 24) (ALGORITHMS.getD 0 [])
        { note := noteW, output := List.replicate 64 0,
          hasContents := [true, false, false] } 0 :=
  claim_c8_below_threshold_skip (fun x => x) (fun _ => 0) (2 ^ 24)
    (ALGORITHMS.getD 0 [])
    { note := noteW, output := List.replicate 64 0,
      hasContents := [true, false, false] } 0 (by decide)

/-- C10: with two or more active voices, the block produced by
`FmCore::process` equals the contribution of the last active voice
processed alone, because `Dx7Note::process` zero-fills the shared
output buffer before writing, so each active voice overwrites the
samples of the voices processed before it. -/
theorem claim_c10_last_voice_wins (sinL exp2L : Int → Int) (srMult : Int)
    (volScale : Int → Int) (vs : List FmVoice) (v : FmVoice)
    (hv : dx7NoteIsActive v.note = true)
    (hvs : ∃ w ∈ vs, dx7NoteIsActive w.note = true) :
    (fmCoreProcess sinL exp2L srMult volScale (vs ++ [v])).2 =
      (fmCoreProcess sinL exp2L srMult volScale [v]).2 := by
  have hbuf : ∀ b b' : List Int,
      (dx7NoteProcess sinL exp2L srMult v.note b).2 =
        (dx7NoteProcess sinL exp2L srMult v.note b').2 := by
    intro b b'
    simp [dx7NoteProcess, hv]
  simp only [fmCoreProcess, List.foldl_append, List.foldl_cons,
    List.foldl_nil, fmCoreStep, hv, if_true]
  rw [hbuf _ (List.replicate 64 0)]
  simp

/-- C10 witness: two concrete active voices; the rendered block is that
of the second alone. -/
theorem claim_c10_last_voice_wins_witness :
    (fmCoreProcess (fun x => x) (fun _ => 0) (2 ^ 24) (fun s => s)
        [voiceW, voiceW]).2 =
      (fmCoreProcess (fun x => x) (fun _ => 0) (2 ^ 24) (fun s => s)
        [voiceW]).2 :=
  claim_c10_last_voice_wins (fun x => x) (fun _ => 0) (2 ^ 24) (fun s => s)
    [voiceW] voiceW (by decide) ⟨voiceW, by decide⟩

/-- C5: the phase-2 loop of `generate_samples` (after the gate turns
off) satisfies the claim: each iteration folds the silence counter over
the rendered chunk (increment below the `1e-4` threshold, reset to zero
otherwise), returns the output truncated to
`length - (counter - threshold)` once the counter reaches the 100 ms
count, breaks once the output exceeds ten seconds, and otherwise
recurses; consequently the total output is bounded by the ten-second
cap plus one chunk, so the loop always terminates. -/
theorem claim_c5_tail_silence (sr : Nat) (chunks : Nat → Fin 24 → ℚ) :
    (∀ k output cnt,
      phase2Go sr chunks k output cnt =
        if sr * 100 / 1000 ≤
            (List.ofFn (chunks k)).foldl
              (fun c s => if |s| < 1 / 10000 then c + 1 else 0) cnt then
          (output ++ List.ofFn (chunks k)).take
            ((output ++ List.ofFn (chunks k)).length -
              ((List.ofFn (chunks k)).foldl
                (fun c s => if |s| < 1 / 10000 then c + 1 else 0) cnt -
                sr * 100 / 1000))
        else if sr * 10 < (output ++ List.ofFn (chunks k)).length then
          output ++ List.ofFn (chunks k)
        else
          phase2Go sr chunks (k + 1) (output ++ List.ofFn (chunks k))
            ((List.ofFn (chunks k)).foldl
              (fun c s => if |s| < 1 / 10000 then c + 1 else 0) cnt)) ∧
    (∀ k output cnt,
      (phase2Go sr chunks k output cnt).length ≤
        max output.length (sr * 10) + 24) := by
  constructor
  · intro k output cnt
    conv_lhs => rw [phase2Go.eq_def]
    simp only [silenceDurationSamples]
    rw [show silenceCount =
      fun c (s : ℚ) => if |s| < 1 / 10000 then c + 1 else 0 from rfl]
  · have aux : ∀ m k (output : List ℚ) cnt,
        sr * 10 + 24 ≤ output.length + m →
        (phase2Go sr chunks k output cnt).length ≤
          max output.length (sr * 10) + 24 := by
      intro m
      induction m with
      | zero =>
        intro k output cnt h
        rw [phase2Go.eq_def]
        split_ifs with h1 h2
        · simp only [List.length_take, List.length_append, List.length_ofFn]
          omega
        · simp only [List.length_append, List.length_ofFn]
          omega
        · simp only [List.length_append, List.length_ofFn, not_lt] at h2
          omega
      | succ m ih =>
        intro k output cnt h
        rw [phase2Go.eq_def]
        split_ifs with h1 h2
        · simp only [List.length_take, List.length_append, List.length_ofFn]
          omega
        · simp only [List.length_append, List.length_ofFn]
          omega
        · have hb := ih (k + 1) (output ++ List.ofFn (chunks k))
            ((List.ofFn (chunks k)).foldl silenceCount cnt)
            (by simp only [List.length_append, List.length_ofFn]; omega)
          simp only [List.length_append, List.length_ofFn, not_lt] at h2 hb ⊢
          omega
    intro k output cnt
    exact aux (sr * 10 + 24) k output cnt (by omega)

/-- C4 (amended): a render call made while the patch parameters are
dirty re-derives the patch-dependent quantities and marks the
parameters clean, but returns early with the supplied buffers
untouched: no block is produced on that call. -/
theorem claim_c4_dirty_render (F PE OE P Buf : Type)
    (ops : C4Ops F PE OE P Buf) (v : VoiceState F PE OE) (params : P)
    (bufs : Buf) (hd : v.dirty = true) :
    renderInternal ops v params bufs = (c4SetupExpected ops v, bufs) := by
  simp [renderInternal, voiceSetup, c4SetupExpected, hd]

/-- C4 counterexample: on a dirty voice, `render_internal` returns the
supplied buffer unchanged (here the sentinel buffers 7 and 9 pass
through), so its result depends on the prior buffer contents — it does
not produce a block of output samples into the supplied buffers, against
the claim. -/
theorem claim_c4_counterexample :
    c4VoiceDirty.dirty = true ∧
      (renderInternal c4OpsInt c4VoiceDirty 0 7).2 = 7 ∧
      (renderInternal c4OpsInt c4VoiceDirty 0 9).2 = 9 ∧
      ¬ (∀ b1 b2 : Nat,
        (renderInternal c4OpsInt c4VoiceDirty 0 b1).2 =
          (renderInternal c4OpsInt c4VoiceDirty 0 b2).2) := by
  refine ⟨rfl, rfl, rfl, fun h => ?_⟩
  have h01 := h 0 1
  simp [renderInternal, voiceSetup, c4OpsInt, c4VoiceDirty] at h01

/-- C4 witness: the amended dirty-render equation evaluated on the
concrete dirty voice with sentinel buffer 7. -/
theorem claim_c4_dirty_render_witness :
    renderInternal c4OpsInt c4VoiceDirty 0 7 =
      (c4SetupExpected c4OpsInt c4VoiceDirty, 7) :=
  claim_c4_dirty_render Int Int Int Int Nat c4OpsInt c4VoiceDirty 0 7 rfl

/-- C1: serializing a well-formed patch with `Dx7Patch::to_data` and
parsing the result back with `Dx7Patch::from_data` loses the detune
field: the round trip of `sxPatchDetune7` (operator detune 7, a
well-formed value) parses back with detune 0, because `to_data` writes
the packed bank layout (detune bit-packed into byte 12 of each
operator record) while `from_data` reads the unpacked layout (detune at
byte 20, which `to_data` never writes).  The round trip therefore does
not restore the patch, against the claim. -/
theorem claim_c1_roundtrip_bug :
    ((toData sxPatchDetune7).bind fromData ≠ some sxPatchDetune7) ∧
      ((toData sxPatchDetune7).bind fromData).map
          (fun p => (p.operators.getD 0 default).detune) = some 0 ∧
      (sxPatchDetune7.operators.getD 0 default).detune = 7 := by
  decide

/-- C2 counterexample: for feedback byte 1 the derived shift stored in
`Dx7Note::apply_patch` is `7 - 1 = 6`, not `8 - 1 = 7` as the claim
states. -/
theorem claim_c2_counterexample : fbShiftOfFeedback 1 ≠ 8 - 1 := by
  decide

/-- C2 (amended): for every feedback byte `f` in `[1,7]` the shift
derived by `Dx7Note::apply_patch` is `7 - f` (the feedback kernel then
shifts by one more bit, so the total applied shift is `8 - f`), and for
`f = 0` the stored shift is 16, the sentinel that disables the feedback
kernel. -/
theorem claim_c2_fb_shift (f : Nat) (h1 : 1 ≤ f) (h7 : f ≤ 7) :
    fbShiftOfFeedback f = 7 - (f : Int) ∧ fbShiftOfFeedback 0 = 16 := by
  interval_cases f <;> exact ⟨by decide, by decide⟩

/-- C2 witness: the amended statement evaluated at feedback byte 3. -/
theorem claim_c2_fb_shift_witness :
    fbShiftOfFeedback 3 = 7 - (3 : Nat) ∧ fbShiftOfFeedback 0 = 16 :=
  claim_c2_fb_shift 3 (by decide) (by decide)

/-- C3 counterexample: on the 128-byte packed input all of whose bytes
are 255, `Patch::unpack` leaves the pitch-mod sensitivity at
`255 >> 4 = 15`, outside the documented range `[0,7]`; the field is the
only one that is not masked to its documented bit width. -/
theorem claim_c3_counterexample :
    (patchUnpack (List.replicate 128 255)).modulations.pitchModSensitivity = 15 ∧
      ¬ (patchUnpack (List.replicate 128 255)).modulations.pitchModSensitivity ≤ 7 := by
  decide

/-- C3 (amended): for every 128-byte packed input, the patch produced by
`Patch::new` has envelope rates and levels in `[0,99]`, algorithm in
`[0,31]`, feedback in `[0,7]`, detune in `[0,14]`, LFO waveform in
`[0,5]`, transpose in `[0,48]`, and pitch-mod sensitivity in `[0,15]`
(the field is a plain `>> 4` of a byte, so its bound is 15, not the
documented 7); no input makes unpacking fail. -/
theorem claim_c3_unpack_ranges (data : List Nat)
    (hlen : data.length = 128) (h256 : ∀ b ∈ data, b < 256) :
    (∀ o ∈ (patchUnpack data).op,
        (∀ r ∈ o.envelope.rate, r ≤ 99) ∧
        (∀ l ∈ o.envelope.level, l ≤ 99) ∧ o.detune ≤ 14) ∧
      (patchUnpack data).algorithm ≤ 31 ∧
      (patchUnpack data).feedback ≤ 7 ∧
      (patchUnpack data).modulations.waveform ≤ 5 ∧
      (patchUnpack data).transpose ≤ 48 ∧
      (patchUnpack data).modulations.pitchModSensitivity ≤ 15 := by
  refine ⟨?_, ?_, ?_, ?_, ?_, ?_⟩
  · intro o ho
    simp only [patchUnpack, List.mem_map, List.mem_range] at ho
    obtain ⟨i, -, rfl⟩ := ho
    refine ⟨?_, ?_, ?_⟩
    · intro r hr
      simp only [unpackOp, List.mem_cons, List.not_mem_nil, or_false] at hr
      rcases hr with h | h | h | h <;> subst h <;> omega
    · intro l hl
      simp only [unpackOp, List.mem_cons, List.not_mem_nil, or_false] at hl
      rcases hl with h | h | h | h <;> subst h <;> omega
    · show min (data.getD (i * 17 + 12) 0 / 8 % 16) 14 ≤ 14
      omega
  · show data.getD 110 0 % 32 ≤ 31
    omega
  · show data.getD 111 0 % 8 ≤ 7
    omega
  · show min (data.getD 116 0 / 2 % 8) 5 ≤ 5
    omega
  · show min (data.getD 117 0 % 128) 48 ≤ 48
    omega
  · show data.getD 116 0 / 16 ≤ 15
    have hlt : 116 < data.length := by omega
    have hmem : data.getD 116 0 ∈ data := by
      rw [List.getD_eq_getElem _ _ hlt]
      exact List.getElem_mem hlt
    have := h256 _ hmem
    omega

/-- C3 witness: the amended statement evaluated on the all-zero
128-byte input. -/
theorem claim_c3_unpack_ranges_witness :
    (∀ o ∈ (patchUnpack (List.replicate 128 0)).op,
        (∀ r ∈ o.envelope.rate, r ≤ 99) ∧
        (∀ l ∈ o.envelope.level, l ≤ 99) ∧ o.detune ≤ 14) ∧
      (patchUnpack (List.replicate 128 0)).algorithm ≤ 31 ∧
      (patchUnpack (List.replicate 128 0)).feedback ≤ 7 ∧
      (patchUnpack (List.replicate 128 0)).modulations.waveform ≤ 5 ∧
      (patchUnpack (List.replicate 128 0)).transpose ≤ 48 ∧
      (patchUnpack (List.replicate 128 0)).modulations.pitchModSensitivity ≤ 15 :=
  claim_c3_unpack_ranges _ (by decide)
    (fun b hb => by rcases List.eq_of_mem_replicate hb with rfl; decide)

end Dx7
